import Mathlib

/-!
Verification development for a Spotify library-migration engine.

The definitions below are a shallow embedding of the Python sources:

* `src/src/data_handler.py`        — snapshot codec (`save_data` / `load_data`)
* `src/src/spotify_manager.py`     — call wrapper (`_spotify_api_call`),
  paginated fetcher (`_fetch_paginated_data`), batched library writes
* `src/spotify_client.py`          — flat client: readers and batched writes
* `src/src/core/spotify_client.py` — `retry_on_rate_limit` decorator,
  `add_playlists`
* `src/operations.py`              — orchestrator (`import_data`, `erase_data`,
  `export_data`)

File I/O is modelled with an abstract file system mapping paths to file
contents; the external `json` library's dump/parse pair is modelled as
storing the JSON value itself (a file whose text does not parse is the
`malformed` content).  Remote calls are modelled by their observable call
traces and by explicit per-attempt outcome functions.
-/

namespace SpotifyMigration

/-- JSON values, the data interchanged by the codec.  Numbers are modelled
as integers; snapshot payloads use only strings, booleans, arrays and
objects, so nothing in the development depends on number representation. -/
inductive Json where
  | null : Json
  | bool (b : Bool) : Json
  | num (n : Int) : Json
  | str (s : String) : Json
  | arr (elems : List Json) : Json
  | obj (fields : List (String × Json)) : Json

/-- Lookup of a key in a JSON object's field list (Python `data['k']` /
`'k' in data` on a dict; dict keys are unique, lookup takes the first). -/
def jlookup (fields : List (String × Json)) (key : String) : Option Json :=
  match fields with
  | [] => none
  | (k, v) :: rest => if k = key then some v else jlookup rest key

/-- `isinstance(data, dict)` -/
def Json.isObj : Json → Bool
  | .obj _ => true
  | _ => false

/-- `isinstance(x, list)` -/
def Json.isArr : Json → Bool
  | .arr _ => true
  | _ => false

/-- Contents of one on-disk file: either text that does not parse as JSON
(truncated or otherwise malformed), or a parsed JSON value. -/
inductive FileContent where
  | malformed : FileContent
  | wellFormed (j : Json) : FileContent

/-- Abstract file system: a path either holds no file or some content. -/
def FS : Type := String → Option FileContent

/-- Writing content to a path. -/
def FS.update (fs : FS) (p : String) (c : FileContent) : FS :=
  fun q => if q = p then some c else fs q

/-- Which fault, if any, the host I/O layer injects into one `save_data`
call.  `openFail` models `open(filepath, 'w')` itself raising `IOError`
(before the file is touched); `dumpFail` models `json.dump` raising
(`IOError` mid-write or `TypeError` on an unserialisable value) after
`open(..., 'w')` has already truncated the file, leaving partial text. -/
inductive SaveFault where
  | noFault : SaveFault
  | openFail : SaveFault
  | dumpFail : SaveFault

/-- Errors `save_data` re-raises to its caller (`raise` at
data_handler.py:16 and :19). -/
inductive SaveErr where
  | ioError : SaveErr
  | typeError : SaveErr

/-- `save_data(data, filepath)` (data_handler.py:7-19).  `open(filepath,'w')`
truncates any existing file, then `json.dump` writes the serialisation of
`data`; on failure the exception is re-raised.  Returns the file system
after the call together with the raised error, if any. -/
def save_data (fault : SaveFault) (fs : FS) (filepath : String) (data : Json) :
    FS × Option SaveErr :=
  match fault with
  | .noFault => (fs.update filepath (.wellFormed data), none)
  | .openFail => (fs, some .ioError)
  | .dumpFail => (fs.update filepath .malformed, some .ioError)

/-- `load_data(filepath)` (data_handler.py:21-52).  Missing file
(`FileNotFoundError`), undecodable text (`json.JSONDecodeError`) and every
shape-validation failure all `return None`; a dict containing `playlists`
and `liked_songs` as lists is returned unchanged. -/
def load_data (fs : FS) (filepath : String) : Option Json :=
  match fs filepath with
  | none => none
  | some .malformed => none
  | some (.wellFormed data) =>
    match data with
    | .obj fields =>
      match jlookup fields "playlists" with
      | some (.arr _) =>
        match jlookup fields "liked_songs" with
        | some (.arr _) => some (.obj fields)
        | _ => none
      | _ => none
    | _ => none

/-- Well-formed snapshot value: a keyed record whose `playlists` and
`liked_songs` entries are arrays (spec §3 invariants, §6 wire shape). -/
def wellFormedSnapshot (data : Json) : Prop :=
  ∃ fields pls liked, data = .obj fields ∧
    jlookup fields "playlists" = some (.arr pls) ∧
    jlookup fields "liked_songs" = some (.arr liked)

/-- One page of a paginated API response: its `items` list and whether a
`next` cursor is present (`results['next']`). -/
structure Page (α : Type) where
  items : List α
  next : Bool

/-- The `while results:` loop of `_fetch_paginated_data`
(spotify_manager.py:212-219).  `calls` lists the successive results of the
wrapped page fetches: element 0 is the initial `_spotify_api_call`, element
`i+1` the result of the `i`-th `self.sp.next` call; `none` means the wrapper
returned `None` (terminal failure after retries), which makes the loop
condition false.  The flat client's readers (spotify_client.py:90-101,
132-139, 155-161) run the same loop shape. -/
def fetchLoop {α : Type} : List (Option (Page α)) → List α
  | [] => []
  | none :: _ => []
  | some page :: rest => page.items ++ (if page.next then fetchLoop rest else [])

/-- `_fetch_paginated_data` (spotify_manager.py:191-222): returns `[]` when
not authenticated (`if not self.sp`), else runs the page loop. -/
def fetch_paginated_data {α : Type} (authed : Bool) (calls : List (Option (Page α))) :
    List α :=
  if authed then fetchLoop calls else []

/-- A well-chained paginated source serving the given pages in order: every
page except the last carries a `next` cursor, the last does not. -/
def chainPages {α : Type} : List (List α) → List (Page α)
  | [] => []
  | items :: rest => ⟨items, !rest.isEmpty⟩ :: chainPages rest

lemma fetchLoop_chainPages {α : Type} (pages : List (List α)) :
    fetchLoop ((chainPages pages).map some) = pages.flatten := by
  induction pages with
  | nil => rfl
  | cons items rest ih =>
    cases rest with
    | nil => simp [chainPages, fetchLoop]
    | cons b bs => simp_all [chainPages, fetchLoop]

end SpotifyMigration

namespace SpotifyMigration

/-- C1: for any well-formed snapshot value (keyed record with `playlists`
and `liked_songs` arrays), `load_data` after `save_data` returns the saved
value itself, field for field and order-preserving. -/
theorem load_after_save (fs : FS) (p : String) (data : Json)
    (h : wellFormedSnapshot data) :
    load_data (save_data .noFault fs p data).1 p = some data := by
  obtain ⟨fields, pls, liked, hdata, hpl, hls⟩ := h
  subst hdata
  simp [save_data, load_data, FS.update, hpl, hls]

/-- A concrete snapshot with one playlist of one track and one liked song. -/
def demoSnapshot : Json :=
  .obj [("user_id", .str "alice"),
        ("export_date", .str "2024-01-01T00:00:00"),
        ("playlists", .arr [.obj [("id", .str "p1"), ("name", .str "Mix"),
          ("public", .bool false), ("description", .str ""),
          ("tracks", .arr [.obj [("id", .str "t1"),
            ("uri", .str "spotify:track:t1")]])]]),
        ("liked_songs", .arr [.obj [("id", .str "t2"),
          ("uri", .str "spotify:track:t2")]])]

/-- The empty file system. -/
def emptyFS : FS := fun _ => none

/-- Witness for C1 at the concrete snapshot `demoSnapshot`. -/
theorem load_after_save_witness :
    wellFormedSnapshot demoSnapshot ∧
    load_data (save_data .noFault emptyFS "export.json" demoSnapshot).1
      "export.json" = some demoSnapshot :=
  ⟨⟨_, _, _, rfl, rfl, rfl⟩,
   load_after_save emptyFS "export.json" demoSnapshot ⟨_, _, _, rfl, rfl, rfl⟩⟩

/-- C2: a well-chained source of `k ≥ 1` pages whose every fetch succeeds
yields exactly the concatenation of the pages' item lists, in order, with
no assumption on page sizes or total item count. -/
theorem pagination_completeness {α : Type} (pages : List (List α))
    (hk : 1 ≤ pages.length) :
    fetch_paginated_data true ((chainPages pages).map some) = pages.flatten := by
  simpa [fetch_paginated_data] using fetchLoop_chainPages pages

/-- Witness for C2: three pages of sizes 2, 0, 1 give the 3 items in order. -/
theorem pagination_completeness_witness :
    1 ≤ ([["a", "b"], [], ["c"]] : List (List String)).length ∧
    fetch_paginated_data true
      ((chainPages [["a", "b"], [], ["c"]]).map some) = ["a", "b", "c"] :=
  ⟨by decide, by
    have h := pagination_completeness [["a", "b"], [], ["c"]] (by decide)
    simpa using h⟩

/-- C3 counterexample: a fetch whose second page call terminally fails
returns the same bare list as a complete one-page fetch of the same items —
the truncated result carries no partial-failure signal and is not
distinguishable from a complete fetch. -/
theorem fetch_failure_indistinguishable :
    fetch_paginated_data true [some ⟨["t1"], true⟩, (none : Option (Page String))] =
      fetch_paginated_data true [some (⟨["t1"], false⟩ : Page String)] ∧
    fetch_paginated_data true [some ⟨["t1"], true⟩, (none : Option (Page String))] =
      ["t1"] := by
  exact ⟨rfl, rfl⟩

/-- C3 amended: when a page fetch terminally fails after a run of
successful pages, `_fetch_paginated_data` returns exactly the items
accumulated so far, as a plain list with no failure marker attached. -/
theorem fetch_failure_returns_accumulated {α : Type} (okPages : List (Page α))
    (rest : List (Option (Page α))) (h : ∀ p ∈ okPages, p.next = true) :
    fetch_paginated_data true (okPages.map some ++ none :: rest) =
      (okPages.map Page.items).flatten := by
  simp only [fetch_paginated_data, if_pos]
  induction okPages with
  | nil => rfl
  | cons p ps ih =>
    have hp : p.next = true := h p (by simp)
    simp_all [fetchLoop]

/-- Witness for C3's amended statement: one successful page of two items,
then a failed call — the two items come back, nothing else. -/
theorem fetch_failure_returns_accumulated_witness :
    (∀ p ∈ [(⟨["x", "y"], true⟩ : Page String)], p.next = true) ∧
    fetch_paginated_data true
      ([(⟨["x", "y"], true⟩ : Page String)].map some ++ none :: []) = ["x", "y"] :=
  ⟨by decide, by
    have h := fetch_failure_returns_accumulated
      [(⟨["x", "y"], true⟩ : Page String)] [] (by decide)
    simpa using h⟩

end SpotifyMigration

namespace SpotifyMigration

/-- `MAX_RETRIES` (spotify_manager.py:18). -/
def MAX_RETRIES : Nat := 3

/-- Outcome of one attempt of the underlying remote call, discriminated the
way the except-clauses of `_spotify_api_call` discriminate exceptions
(spotify_manager.py:163-185): success, `SpotifyException` with status 429
(carrying an optional `Retry-After` header), any other `SpotifyException`,
`requests` timeout, other `requests` network error, or any other
exception. -/
inductive AttemptResult (α : Type) where
  | ok (a : α) : AttemptResult α
  | rateLimited (retryAfter : Option Nat) : AttemptResult α
  | spotifyError : AttemptResult α
  | timeout : AttemptResult α
  | requestError : AttemptResult α
  | otherError : AttemptResult α

/-- Whether an attempt succeeded. -/
def AttemptResult.isOk {α : Type} : AttemptResult α → Bool
  | .ok _ => true
  | _ => false

/-- The `while retries <= MAX_RETRIES` loop of `_spotify_api_call`
(spotify_manager.py:160-188).  `call n` is the outcome of the attempt made
when the loop variable `retries` equals `n`.  A 429 retries only while
`retries < MAX_RETRIES`, a timeout always increments and re-tests the loop
condition, every other exception returns `None` at once, and falling out of
the loop returns `None` (line 188).  Backoff sleeping does not affect the
returned value and is not modelled. -/
def apiCallLoop {α : Type} (call : Nat → AttemptResult α) (retries : Nat) :
    Option α :=
  if _h : retries ≤ MAX_RETRIES then
    match call retries with
    | .ok a => some a
    | .rateLimited _ =>
      if _h2 : retries < MAX_RETRIES then apiCallLoop call (retries + 1) else none
    | .timeout => apiCallLoop call (retries + 1)
    | .spotifyError => none
    | .requestError => none
    | .otherError => none
  else none
termination_by MAX_RETRIES + 1 - retries
decreasing_by all_goals omega

/-- `_spotify_api_call` (spotify_manager.py:154-188): `None` when not
authenticated, else the retry loop started at `retries = 0`. -/
def spotify_api_call {α : Type} (authed : Bool) (call : Nat → AttemptResult α) :
    Option α :=
  if authed then apiCallLoop call 0 else none

/-- A `SpotifyException` as classified by `retry_on_rate_limit`
(core/spotify_client.py:27): its message either contains "rate limit" or
does not. -/
inductive SpException where
  | rateLimit : SpException
  | other : SpException

/-- The string test `"rate limit" in str(e).lower()`. -/
def SpException.isRateLimit : SpException → Bool
  | .rateLimit => true
  | .other => false

/-- The `while retries <= max_retries` loop of the `retry_on_rate_limit`
decorator (core/spotify_client.py:15-35).  `call n` is the wrapped
function's behaviour on the attempt made when `retries` equals `n`:
`.ok a` a normal return, `.error e` a raised `SpotifyException`.  A
rate-limit exception with `retries < max_retries` sleeps and retries; any
other exception, or a rate-limit one with the budget exhausted, is
re-raised (`raise`, line 33).  Falling out of the loop is Python's implicit
`return None`, modelled as `.ok none`. -/
def retryLoop {α : Type} (call : Nat → Except SpException α)
    (maxRetries retries : Nat) : Except SpException (Option α) :=
  if _h : retries ≤ maxRetries then
    match call retries with
    | .ok a => .ok (some a)
    | .error e =>
      if _h2 : e.isRateLimit ∧ retries < maxRetries then
        retryLoop call maxRetries (retries + 1)
      else .error e
  else .ok none
termination_by maxRetries + 1 - retries
decreasing_by omega

/-- `retry_on_rate_limit()` with its default `max_retries=3`
(core/spotify_client.py:15). -/
def retry_on_rate_limit {α : Type} (call : Nat → Except SpException α) :
    Except SpException (Option α) :=
  retryLoop call 3 0

lemma apiCallLoop_eq_none {α : Type} (call : Nat → AttemptResult α)
    (hfail : ∀ n, (call n).isOk = false) :
    ∀ retries, apiCallLoop call retries = none := by
  have main : ∀ fuel retries, MAX_RETRIES + 1 - retries ≤ fuel →
      apiCallLoop call retries = none := by
    intro fuel
    induction fuel with
    | zero =>
      intro retries hr
      rw [apiCallLoop]
      have hgt : ¬ retries ≤ MAX_RETRIES := by omega
      simp [hgt]
    | succ n ih =>
      intro retries hr
      rw [apiCallLoop]
      split
      · rename_i hle
        cases hc : call retries with
        | ok a =>
          have := hfail retries
          rw [hc] at this
          simp [AttemptResult.isOk] at this
        | rateLimited ra =>
          simp only
          split
          · exact ih (retries + 1) (by omega)
          · rfl
        | timeout => exact ih (retries + 1) (by omega)
        | spotifyError => rfl
        | requestError => rfl
        | otherError => rfl
      · rfl
  intro retries
  exact main (MAX_RETRIES + 1 - retries) retries le_rfl

lemma retryLoop_rateLimit {α : Type} (call : Nat → Except SpException α)
    (hfail : ∀ n, call n = .error .rateLimit) (maxRetries : Nat) :
    ∀ retries, retries ≤ maxRetries →
      retryLoop call maxRetries retries = .error .rateLimit := by
  have main : ∀ fuel retries, maxRetries + 1 - retries ≤ fuel →
      retries ≤ maxRetries →
      retryLoop call maxRetries retries = .error .rateLimit := by
    intro fuel
    induction fuel with
    | zero => intro retries hr hle; omega
    | succ n ih =>
      intro retries hr hle
      rw [retryLoop]
      simp only [hle, dite_true, hfail retries]
      split
      · rename_i h2
        exact ih (retries + 1) (by omega) (by omega)
      · rfl
  intro retries hle
  exact main (maxRetries + 1 - retries) retries le_rfl hle

end SpotifyMigration

namespace SpotifyMigration

/-- C5 counterexample: wrapped by `retry_on_rate_limit`, a call that fails
with a rate-limit `SpotifyException` on every attempt ends with the
exception re-raised past the caller (`.error`), and a call raising a
non-retryable exception re-raises it immediately — the decorator does not
convert either into a failure value. -/
theorem retry_decorator_raises :
    retry_on_rate_limit (fun _ => (.error .rateLimit : Except SpException Nat)) =
      .error .rateLimit ∧
    retry_on_rate_limit (fun _ => (.error .other : Except SpException Nat)) =
      .error .other := by
  constructor
  · exact retryLoop_rateLimit _ (fun _ => rfl) 3 0 (by omega)
  · rw [retry_on_rate_limit, retryLoop]
    simp [SpException.isRateLimit]

/-- C5 amended: the manager's wrapper `_spotify_api_call` turns a call that
fails on every attempt (rate-limited, timing out, or non-retryable) into
the failure value `None` without raising, stopping once the `MAX_RETRIES`
budget is spent; the decorator `retry_on_rate_limit`, by contrast,
re-raises the rate-limit exception once its retries are exhausted, and
re-raises a non-retryable exception at once. -/
theorem call_wrapper_failure_behaviour {α β γ : Type}
    (call : Nat → AttemptResult α) (hfail : ∀ n, (call n).isOk = false)
    (dcall : Nat → Except SpException β)
    (hdfail : ∀ n, dcall n = .error .rateLimit)
    (ecall : Nat → Except SpException γ) (e : SpException)
    (he : e.isRateLimit = false) (hecall : ecall 0 = .error e) :
    spotify_api_call true call = none ∧
    retry_on_rate_limit dcall = .error .rateLimit ∧
    retry_on_rate_limit ecall = .error e := by
  refine ⟨?_, ?_, ?_⟩
  · simpa [spotify_api_call] using apiCallLoop_eq_none call hfail 0
  · exact retryLoop_rateLimit dcall hdfail 3 0 (by omega)
  · rw [retry_on_rate_limit, retryLoop]
    simp [hecall, he]

/-- Witness for C5's amended statement at concrete always-failing calls. -/
theorem call_wrapper_failure_behaviour_witness :
    (AttemptResult.rateLimited none : AttemptResult Nat).isOk = false ∧
    spotify_api_call true (fun _ => (.rateLimited none : AttemptResult Nat)) = none ∧
    retry_on_rate_limit (fun _ => (.error .rateLimit : Except SpException Nat)) =
      .error .rateLimit ∧
    retry_on_rate_limit (fun _ => (.error .other : Except SpException Nat)) =
      .error .other := by
  have h := call_wrapper_failure_behaviour
    (fun _ => (.rateLimited none : AttemptResult Nat)) (fun _ => rfl)
    (fun _ => (.error .rateLimit : Except SpException Nat)) (fun _ => rfl)
    (fun _ => (.error .other : Except SpException Nat)) .other rfl rfl
  exact ⟨rfl, h.1, h.2.1, h.2.2⟩

end SpotifyMigration

namespace SpotifyMigration

/-- `MAX_TRACKS_PER_ADD` (spotify_manager.py:20); also the literal `100` in
`add_tracks_to_playlist` (spotify_client.py:195). -/
def MAX_TRACKS_PER_ADD : Nat := 100

/-- `MAX_TRACKS_PER_LIKE_DELETE` (spotify_manager.py:21); also the literal
`50` in `like_songs` / `unlike_songs` (spotify_client.py:212, 243). -/
def MAX_TRACKS_PER_LIKE_DELETE : Nat := 50

/-- Helper for `batches`: the slicing loop with an explicit recursion bound.
The bound is only a termination device — it starts at the list length,
which is never exhausted before the list is whenever `n ≥ 1`. -/
def batchesAux {α : Type} (n : Nat) : Nat → List α → List (List α)
  | 0, _ => []
  | _, [] => []
  | fuel + 1, a :: rest => ((a :: rest).take n) :: batchesAux n fuel ((a :: rest).drop n)

/-- The loop `for i in range(0, len(l), n): chunk = l[i:i+n]`
(spotify_client.py:195-197, 212-214, 243-245; spotify_manager.py:257-258,
305-306, 336-337): the successive length-`n` slices of `l`, the last one
shorter when `n` does not divide the length. -/
def batches {α : Type} (n : Nat) (l : List α) : List (List α) :=
  batchesAux n l.length l

/-- The chunks handed to `sp.playlist_add_items`, one wrapped call per
chunk, by `add_tracks_to_playlist` (spotify_client.py:193-198) and
`create_playlist_and_add_tracks` (spotify_manager.py:305-308). -/
def add_tracks_calls (track_uris : List String) : List (List String) :=
  batches 100 track_uris

/-- The chunks handed to `sp.current_user_saved_tracks_add` by
`like_songs` (spotify_client.py:210-214) and `add_tracks_to_library`
(spotify_manager.py:257-260). -/
def like_songs_calls (track_ids : List String) : List (List String) :=
  batches 50 track_ids

/-- The chunks handed to `sp.current_user_saved_tracks_delete` by
`unlike_songs` (spotify_client.py:242-245) and
`remove_tracks_from_library` (spotify_manager.py:336-339). -/
def unlike_songs_calls (track_ids : List String) : List (List String) :=
  batches 50 track_ids

lemma batchesAux_flatten {α : Type} (n : Nat) (hn : 0 < n) :
    ∀ fuel (l : List α), l.length ≤ fuel → (batchesAux n fuel l).flatten = l := by
  intro fuel
  induction fuel with
  | zero =>
    intro l h
    have : l = [] := List.eq_nil_of_length_eq_zero (Nat.le_zero.mp h)
    subst this
    rfl
  | succ m ih =>
    intro l h
    cases l with
    | nil => rfl
    | cons a rest =>
      show (((a :: rest).take n) :: batchesAux n m ((a :: rest).drop n)).flatten
            = a :: rest
      rw [List.flatten_cons, ih ((a :: rest).drop n)
        (by simp only [List.length_drop, List.length_cons] at h ⊢; omega)]
      exact List.take_append_drop n (a :: rest)

lemma batches_flatten {α : Type} (n : Nat) (hn : 0 < n) (l : List α) :
    (batches n l).flatten = l :=
  batchesAux_flatten n hn l.length l le_rfl

lemma batchesAux_length_le {α : Type} (n : Nat) :
    ∀ fuel (l : List α), ∀ c ∈ batchesAux n fuel l, c.length ≤ n := by
  intro fuel
  induction fuel with
  | zero => intro l c hc; simp [batchesAux] at hc
  | succ m ih =>
    intro l c hc
    cases l with
    | nil => simp [batchesAux] at hc
    | cons a rest =>
      rcases List.mem_cons.mp hc with h | h
      · subst h
        simpa using List.length_take_le n (a :: rest)
      · exact ih _ c h

set_option maxRecDepth 10000 in
/-- C4: `add_tracks` issues one wrapped call per 100-sized chunk and
`like_songs`/`unlike_songs` per 50-sized chunk; the chunks partition the
input in order (their concatenation is the input, each no larger than the
cap), and 250 URIs give exactly the call sizes [100, 100, 50] while 120 ids
give exactly [50, 50, 20]. -/
theorem batch_sizing (uris ids : List String) :
    (add_tracks_calls uris).flatten = uris ∧
    (∀ c ∈ add_tracks_calls uris, c.length ≤ 100) ∧
    (like_songs_calls ids).flatten = ids ∧
    (∀ c ∈ like_songs_calls ids, c.length ≤ 50) ∧
    (unlike_songs_calls ids).flatten = ids ∧
    (add_tracks_calls (List.replicate 250 "u")).map List.length = [100, 100, 50] ∧
    (like_songs_calls (List.replicate 120 "i")).map List.length = [50, 50, 20] := by
  refine ⟨batches_flatten 100 (by omega) uris,
          fun c hc => batchesAux_length_le 100 _ uris c hc,
          batches_flatten 50 (by omega) ids,
          fun c hc => batchesAux_length_le 50 _ ids c hc,
          batches_flatten 50 (by omega) ids, ?_, ?_⟩
  · rfl
  · rfl

/-- Witness for C4 at concrete track lists. -/
theorem batch_sizing_witness :
    (add_tracks_calls (List.replicate 250 "u")).map List.length = [100, 100, 50] ∧
    (like_songs_calls (List.replicate 120 "i")).map List.length = [50, 50, 20] ∧
    (add_tracks_calls ["a", "b"]).flatten = ["a", "b"] ∧
    (["a", "b"] : List String).length ≤ 100 := by
  have h := batch_sizing (List.replicate 250 "u") (List.replicate 120 "i")
  have h2 := batch_sizing ["a", "b"] ["c"]
  exact ⟨h.2.2.2.2.2.1, h.2.2.2.2.2.2, h2.1, h2.2.1 ["a", "b"] (by decide)⟩

end SpotifyMigration

namespace SpotifyMigration

/-- A file system whose `data.json` is missing. -/
def fsMissing : FS := fun _ => none

/-- A file system whose `data.json` holds text that does not parse. -/
def fsMalformed : FS := FS.update emptyFS "data.json" .malformed

/-- C6 counterexample: a missing file and a malformed file produce the very
same `load_data` result, `None` — the two failure kinds are not
distinguishable in the result (only in log output). -/
theorem load_failures_indistinguishable :
    load_data fsMissing "data.json" = load_data fsMalformed "data.json" ∧
    load_data fsMissing "data.json" = none ∧
    fsMissing "data.json" = none ∧
    fsMalformed "data.json" = some .malformed :=
  ⟨rfl, rfl, rfl, rfl⟩

/-- C6 amended: `load_data` returns `None` for a missing file, for
undecodable content, for a non-dict top level, and for a missing or
non-array `playlists` key, with no partial construction — the result is
either `None` or the complete validated record — but all failure kinds
collapse to the same `None`, so they are not distinguishable from each
other in the result. -/
theorem load_error_taxonomy (fs : FS) (p : String) :
    (fs p = none → load_data fs p = none) ∧
    (fs p = some .malformed → load_data fs p = none) ∧
    (∀ elems, fs p = some (.wellFormed (.arr elems)) → load_data fs p = none) ∧
    (∀ fields, fs p = some (.wellFormed (.obj fields)) →
      jlookup fields "playlists" = none → load_data fs p = none) ∧
    (load_data fs p = none ∨
      ∃ j, load_data fs p = some j ∧ fs p = some (.wellFormed j) ∧
        wellFormedSnapshot j) := by
  refine ⟨?_, ?_, ?_, ?_, ?_⟩
  · intro h; simp [load_data, h]
  · intro h; simp [load_data, h]
  · intro elems h; simp [load_data, h]
  · intro fields h hpl; simp [load_data, h, hpl]
  · cases hfs : fs p with
    | none => exact Or.inl (by simp [load_data, hfs])
    | some c =>
      cases c with
      | malformed => exact Or.inl (by simp [load_data, hfs])
      | wellFormed j =>
        cases j with
        | obj fields =>
          cases hpl : jlookup fields "playlists" with
          | none => exact Or.inl (by simp [load_data, hfs, hpl])
          | some v =>
            cases v with
            | arr pls =>
              cases hls : jlookup fields "liked_songs" with
              | none => exact Or.inl (by simp [load_data, hfs, hpl, hls])
              | some w =>
                cases w with
                | arr liked =>
                  refine Or.inr ⟨.obj fields, ?_, rfl,
                    fields, pls, liked, rfl, hpl, hls⟩
                  simp [load_data, hfs, hpl, hls]
                | null => exact Or.inl (by simp [load_data, hfs, hpl, hls])
                | bool b => exact Or.inl (by simp [load_data, hfs, hpl, hls])
                | num n => exact Or.inl (by simp [load_data, hfs, hpl, hls])
                | str s => exact Or.inl (by simp [load_data, hfs, hpl, hls])
                | obj g => exact Or.inl (by simp [load_data, hfs, hpl, hls])
            | null => exact Or.inl (by simp [load_data, hfs, hpl])
            | bool b => exact Or.inl (by simp [load_data, hfs, hpl])
            | num n => exact Or.inl (by simp [load_data, hfs, hpl])
            | str s => exact Or.inl (by simp [load_data, hfs, hpl])
            | obj g => exact Or.inl (by simp [load_data, hfs, hpl])
        | null => exact Or.inl (by simp [load_data, hfs])
        | bool b => exact Or.inl (by simp [load_data, hfs])
        | num n => exact Or.inl (by simp [load_data, hfs])
        | str s => exact Or.inl (by simp [load_data, hfs])
        | arr elems => exact Or.inl (by simp [load_data, hfs])

/-- Witness for C6's amended statement: the missing-file branch at a
concrete file system. -/
theorem load_error_taxonomy_witness :
    fsMissing "data.json" = none ∧ load_data fsMissing "data.json" = none :=
  ⟨rfl, (load_error_taxonomy fsMissing "data.json").1 rfl⟩

/-- A file system with an intact earlier snapshot at `snap.json`. -/
def fsWithOld : FS := FS.update emptyFS "snap.json" (.wellFormed (.str "old"))

/-- C7 counterexample: a `json.dump`-time failure while saving over an
existing file leaves a truncated, malformed file — neither the old content
intact nor the new content fully written. -/
theorem save_not_atomic :
    (save_data .dumpFail fsWithOld "snap.json" (.str "new")).1 "snap.json" =
      some .malformed ∧
    (save_data .dumpFail fsWithOld "snap.json" (.str "new")).1 "snap.json" ≠
      fsWithOld "snap.json" ∧
    (save_data .dumpFail fsWithOld "snap.json" (.str "new")).1 "snap.json" ≠
      some (.wellFormed (.str "new")) := by
  refine ⟨rfl, ?_, ?_⟩ <;> · intro h; simp [save_data, FS.update, fsWithOld] at h

/-- C7 amended: `save_data` raises a distinguishable error on every write
failure and fully writes the new content on success; the old file survives
a failure of `open` itself, but because `open(path, 'w')` truncates before
`json.dump` runs, a failure during serialisation destroys the old content
and leaves a truncated partial file (only other paths are untouched). -/
theorem save_failure_behaviour (fs : FS) (p : String) (d : Json) :
    (save_data .noFault fs p d).1 p = some (.wellFormed d) ∧
    (save_data .noFault fs p d).2 = none ∧
    (save_data .openFail fs p d).1 = fs ∧
    (save_data .openFail fs p d).2 = some .ioError ∧
    (save_data .dumpFail fs p d).1 p = some .malformed ∧
    (save_data .dumpFail fs p d).2 = some .ioError ∧
    (∀ q, q ≠ p → (save_data .dumpFail fs p d).1 q = fs q) := by
  refine ⟨by simp [save_data, FS.update], rfl, rfl, rfl,
    by simp [save_data, FS.update], rfl, ?_⟩
  intro q hq
  simp [save_data, FS.update, hq]

/-- Witness for C7's amended statement at a concrete file system. -/
theorem save_failure_behaviour_witness :
    (save_data .noFault fsWithOld "snap.json" (.str "new")).1 "snap.json" =
      some (.wellFormed (.str "new")) ∧
    (save_data .dumpFail fsWithOld "snap.json" (.str "new")).1 "other.json" =
      fsWithOld "other.json" := by
  have h := save_failure_behaviour fsWithOld "snap.json" (.str "new")
  exact ⟨h.1, h.2.2.2.2.2.2 "other.json" (by decide)⟩

end SpotifyMigration

namespace SpotifyMigration

/-- One track record of a snapshot as consumed by the writers: the
`'uri' in track` / `'id' in track` membership tests make both fields
optional (operations.py:101, 108, 146). -/
structure TrackEntry where
  uri : Option String
  id : Option String

/-- One element of the snapshot's `playlists` array as read by
`import_data` (operations.py:87-104).  `public` and `description` carry
the values after the `.get(..., default)` defaulting at lines 95-96. -/
structure PlaylistData where
  id : String
  name : String
  public : Bool
  description : String
  tracks : List TrackEntry

/-- The Python truthiness test
`if selected_playlists and playlist_data['id'] not in selected_playlists:
continue` (operations.py:89 and :133, core/spotify_client.py:266): a
record is skipped iff the selection argument is truthy — not `None` AND a
non-empty list — and the id is not a member.  An empty selection list is
falsy, so it disables the filter entirely. -/
def keepId (selected : Option (List String)) (id : String) : Bool :=
  match selected with
  | none => true
  | some sel => if sel.isEmpty then true else sel.contains id

/-- One `create_playlist` call together with the track URIs subsequently
passed to `add_tracks_to_playlist` for the new playlist (the add call is
only issued when the URI list is non-empty, operations.py:102). -/
structure CreatedPlaylist where
  name : String
  public : Bool
  description : String
  trackUris : List String

/-- The parsed snapshot as consumed by `import_data`: the `playlists` and
`liked_songs` keys may each be absent (`'playlists' in data`,
operations.py:86 and :107). -/
structure SnapshotData where
  playlists : Option (List PlaylistData)
  liked_songs : Option (List TrackEntry)

/-- `import_data` (operations.py:73-117), modelled by the remote calls it
issues on the path where every `create_playlist` call succeeds: per kept
playlist record one creation (with the uri-bearing tracks added to it),
and — when `import_liked_songs` is set, the key present, and the id list
non-empty (line 109) — one `like_songs` call over the id-bearing liked
tracks. -/
def import_data (import_playlists import_liked_songs : Bool)
    (selected : Option (List String)) (data : SnapshotData) :
    List CreatedPlaylist × Option (List String) :=
  ((if import_playlists then
      match data.playlists with
      | none => []
      | some pls =>
        (pls.filter (fun pd => keepId selected pd.id)).map
          (fun pd => ⟨pd.name, pd.public, pd.description,
            pd.tracks.filterMap TrackEntry.uri⟩)
    else []),
   if import_liked_songs then
     match data.liked_songs with
     | none => none
     | some ls =>
       let ids := ls.filterMap TrackEntry.id
       if ids.isEmpty then none else some ids
   else none)

/-- Playlist A of the selection scenario. -/
def playlistA : PlaylistData :=
  ⟨"A", "Alpha", false, "", [⟨some "spotify:track:a1", some "a1"⟩]⟩

/-- Playlist B of the selection scenario. -/
def playlistB : PlaylistData :=
  ⟨"B", "Beta", true, "b", [⟨some "spotify:track:b1", some "b1"⟩]⟩

/-- Playlist C of the selection scenario. -/
def playlistC : PlaylistData :=
  ⟨"C", "Gamma", false, "", [⟨some "spotify:track:c1", some "c1"⟩]⟩

/-- C8 counterexample: with the empty set supplied as the selection,
`import_data` processes every playlist of the snapshot — here it creates
the one playlist "Alpha" even though its id "A" is not a member of the
empty selection — because the empty list is falsy in the guard at
operations.py:89, which the membership semantics of the claim would
require to skip everything. -/
theorem import_empty_selection_processes_all :
    (import_data true false (some [])
        ⟨some [playlistA], none⟩).1 =
      [⟨"Alpha", false, "", ["spotify:track:a1"]⟩] ∧
    ("A" ∈ ([] : List String)) = False :=
  ⟨rfl, by simp⟩

/-- C8 amended: for a `None` selection every playlist is processed, for a
non-empty selection exactly the member playlists are processed (one
creation per kept record, in snapshot order, with that record's name and
uri-bearing tracks — so a non-member is never touched); but an empty
selection list is falsy and disables the filter, processing everything.
Liked-song handling depends only on its own boolean (and the snapshot),
never on the playlist selection. -/
theorem import_selection_filter (il : Bool) (sel : List String)
    (hsel : sel ≠ []) (pls : List PlaylistData)
    (liked : Option (List TrackEntry)) :
    (import_data true il (some sel) ⟨some pls, liked⟩).1 =
      (pls.filter (fun pd => sel.contains pd.id)).map
        (fun pd => ⟨pd.name, pd.public, pd.description,
          pd.tracks.filterMap TrackEntry.uri⟩) ∧
    (import_data true il none ⟨some pls, liked⟩).1 =
      pls.map (fun pd => ⟨pd.name, pd.public, pd.description,
        pd.tracks.filterMap TrackEntry.uri⟩) ∧
    (∀ sel' sel'' : Option (List String),
      (import_data true il sel' ⟨some pls, liked⟩).2 =
        (import_data true il sel'' ⟨some pls, liked⟩).2) ∧
    (import_data true false (some sel) ⟨some pls, liked⟩).2 = none := by
  refine ⟨?_, ?_, ?_, ?_⟩
  · cases sel with
    | nil => exact absurd rfl hsel
    | cons a t => simp [import_data, keepId]
  · simp [import_data, keepId]
  · intro sel' sel''; rfl
  · rfl

/-- Witness for C8's amended statement: the A/B/C snapshot with selection
{A, C} creates exactly the two playlists "Alpha" and "Gamma" with their
tracks, and "Beta" is never touched. -/
theorem import_selection_filter_witness :
    (["A", "C"] : List String) ≠ [] ∧
    (import_data true true (some ["A", "C"])
        ⟨some [playlistA, playlistB, playlistC],
         some [⟨some "spotify:track:l1", some "l1"⟩]⟩).1 =
      [⟨"Alpha", false, "", ["spotify:track:a1"]⟩,
       ⟨"Gamma", false, "", ["spotify:track:c1"]⟩] := by
  have h := import_selection_filter true ["A", "C"] (by simp)
    [playlistA, playlistB, playlistC]
    (some [⟨some "spotify:track:l1", some "l1"⟩])
  exact ⟨by simp, h.1.trans rfl⟩

end SpotifyMigration

namespace SpotifyMigration

/-- A track object inside a fetched page item, restricted to the field the
embedded reads inspect: `track.get('uri')` (absent key or empty string are
both falsy at spotify_manager.py:236 and :245). -/
structure RawTrack where
  uri : Option String
deriving DecidableEq

/-- The `while results:` loop of the flat client's `get_playlist_tracks`
(spotify_client.py:130-139, core/spotify_client.py:175-184): each page
item's `track` field (`none` for a null track) is appended only when
truthy (`if item['track']:`). -/
def playlistTracksLoop : List (Page (Option RawTrack)) → List RawTrack
  | [] => []
  | page :: rest =>
    page.items.filterMap (fun t => t) ++
      (if page.next then playlistTracksLoop rest else [])

/-- `get_playlist_tracks` (spotify_client.py:123-144): `[]` when not
authenticated, else the filtering page loop over successful pages. -/
def client_get_playlist_tracks (authed : Bool)
    (pages : List (Page (Option RawTrack))) : List RawTrack :=
  if authed then playlistTracksLoop pages else []

/-- `get_liked_songs` of the flat client (spotify_client.py:146-166,
identically core/spotify_client.py:191-212): the same page loop but
appending `item['track']` unconditionally (line 157) — no null filter. -/
def client_get_liked_songs (authed : Bool)
    (pages : List (Page (Option RawTrack))) : List (Option RawTrack) :=
  if authed then fetchLoop (pages.map some) else []

/-- `get_liked_songs` of the manager (spotify_manager.py:240-247): the
paginated fetch of saved-track items (each carrying a `track` field that
may be null or absent), then the comprehension keeping
`item['track']['uri']` only when both `item.get('track')` and
`item['track'].get('uri')` are truthy. -/
def manager_get_liked_songs (authed : Bool)
    (calls : List (Option (Page (Option RawTrack)))) : List String :=
  (fetch_paginated_data authed calls).filterMap
    (fun item =>
      match item with
      | none => none
      | some t =>
        match t.uri with
        | none => none
        | some s => if s.isEmpty then none else some s)

/-- C9 counterexample: the flat client's liked-song read appends a page
item whose underlying track is null straight into its result — the null
item appears in the Reader's output instead of being excluded. -/
theorem liked_songs_null_not_filtered :
    client_get_liked_songs true
        [⟨[none, some ⟨some "spotify:track:x"⟩], false⟩] =
      [none, some ⟨some "spotify:track:x"⟩] ∧
    (none : Option RawTrack) ∈ client_get_liked_songs true [⟨[none], false⟩] :=
  ⟨rfl, by
    rw [show client_get_liked_songs true [⟨[none], false⟩] =
      [(none : Option RawTrack)] from rfl]
    exact List.mem_singleton.mpr rfl⟩

/-- C9 amended: the playlist-track read returns exactly the non-null
underlying tracks in page order, and the manager's liked-song read emits
only uris of items whose track is present with a truthy uri; but the flat
client's liked-song read performs no filtering — it returns every fetched
item's track field verbatim, null entries included. -/
theorem track_filtering_behaviour
    (pages : List (Page (Option RawTrack)))
    (calls : List (Option (Page (Option RawTrack))))
    (its : List (List (Option RawTrack))) :
    client_get_playlist_tracks true pages =
      (fetchLoop (pages.map some)).filterMap (fun t => t) ∧
    (∀ s ∈ manager_get_liked_songs true calls,
      ∃ t : RawTrack, some t ∈ fetch_paginated_data true calls ∧
        t.uri = some s ∧ s ≠ "") ∧
    client_get_liked_songs true (chainPages its) = its.flatten := by
  refine ⟨?_, ?_, ?_⟩
  · show playlistTracksLoop pages = _
    induction pages with
    | nil => rfl
    | cons page rest ih =>
      cases hn : page.next <;>
        simp [playlistTracksLoop, fetchLoop, hn, ih]
  · intro s hs
    simp only [manager_get_liked_songs, List.mem_filterMap] at hs
    obtain ⟨item, hitem, hext⟩ := hs
    cases item with
    | none => simp at hext
    | some t =>
      have hext2 : (match t.uri with
          | none => none
          | some s => if s.isEmpty then none else some s) = some s := hext
      clear hext
      rename' hext2 => hext
      cases hu : t.uri with
      | none => rw [hu] at hext; simp at hext
      | some u =>
        rw [hu] at hext
        by_cases hemp : u.isEmpty
        · simp [hemp] at hext
        · simp only [hemp, if_neg, Bool.false_eq_true, not_false_iff,
            ite_false, Option.some.injEq] at hext
          subst hext
          refine ⟨t, hitem, hu, ?_⟩
          intro h
          subst h
          exact absurd hemp (by decide)
  · show fetchLoop _ = _
    exact fetchLoop_chainPages its

/-- Witness for C9's amended statement: one page with a null item and one
real track; the playlist read keeps only the real track, the manager's
liked read keeps only its uri, the flat client's liked read keeps both
entries. -/
theorem track_filtering_behaviour_witness :
    client_get_playlist_tracks true
        [⟨[none, some ⟨some "spotify:track:y"⟩], false⟩] =
      [⟨some "spotify:track:y"⟩] ∧
    (∃ t : RawTrack,
      some t ∈ fetch_paginated_data true
        [some (⟨[none, some ⟨some "spotify:track:y"⟩], false⟩ :
          Page (Option RawTrack))] ∧
      t.uri = some "spotify:track:y" ∧ "spotify:track:y" ≠ "") ∧
    client_get_liked_songs true
        (chainPages [[none, some ⟨some "spotify:track:y"⟩]]) =
      [none, some ⟨some "spotify:track:y"⟩] := by
  have h := track_filtering_behaviour
    [⟨[none, some ⟨some "spotify:track:y"⟩], false⟩]
    [some ⟨[none, some ⟨some "spotify:track:y"⟩], false⟩]
    [[none, some ⟨some "spotify:track:y"⟩]]
  refine ⟨h.1.trans rfl, ?_, h.2.2.trans rfl⟩
  exact h.2.1 "spotify:track:y" (by decide)

end SpotifyMigration

namespace SpotifyMigration

/-- One fetched playlist as inspected by `erase_data`: its `id` and its
`owner['id']` (operations.py:133, 137-138). -/
structure FetchedPlaylist where
  id : String
  ownerId : String
deriving DecidableEq

/-- `erase_data` (operations.py:119-156), modelled by the remote mutation
calls it issues: with playlist erasure on, one `delete_playlist` call per
fetched playlist that passes the selection guard (the same truthiness test
as import, line 133) AND whose `owner['id']` equals the authenticated
user's id (line 137); with liked-song erasure on, one `unlike_songs` call
over the id-bearing liked tracks when that list is non-empty
(lines 146-149). -/
def erase_data (erase_playlists erase_liked_songs : Bool) (user_id : String)
    (selected : Option (List String)) (playlists : List FetchedPlaylist)
    (liked : List TrackEntry) : List String × Option (List String) :=
  ((if erase_playlists then
      (playlists.filter
        (fun p => keepId selected p.id && (p.ownerId == user_id))).map
        FetchedPlaylist.id
    else []),
   if erase_liked_songs then
     let ids := liked.filterMap TrackEntry.id
     if ids.isEmpty then none else some ids
   else none)

/-- C10: with playlist erasure enabled, every issued `delete_playlist`
call targets a fetched playlist whose owner id equals the authenticated
user's id (and which passed the selection filter); conversely every
selected playlist the user owns is deleted, and — playlist ids being
unique in the fetched list — a playlist owned by a different account is
never deleted, even when it appears in the list and passes the filter. -/
theorem erase_only_owned (el : Bool) (uid : String)
    (sel : Option (List String)) (playlists : List FetchedPlaylist)
    (liked : List TrackEntry)
    (hnd : (playlists.map FetchedPlaylist.id).Nodup) :
    (∀ c ∈ (erase_data true el uid sel playlists liked).1,
      ∃ p ∈ playlists, p.id = c ∧ p.ownerId = uid ∧ keepId sel p.id = true) ∧
    (∀ p ∈ playlists, p.ownerId = uid → keepId sel p.id = true →
      p.id ∈ (erase_data true el uid sel playlists liked).1) ∧
    (∀ p ∈ playlists, p.ownerId ≠ uid →
      p.id ∉ (erase_data true el uid sel playlists liked).1) := by
  refine ⟨?_, ?_, ?_⟩
  · intro c hc
    simp only [erase_data, if_pos, List.mem_map, List.mem_filter,
      Bool.and_eq_true, beq_iff_eq] at hc
    obtain ⟨p, ⟨hp, hkeep, hown⟩, hid⟩ := hc
    exact ⟨p, hp, hid, hown, hkeep⟩
  · intro p hp hown hkeep
    simp only [erase_data, if_pos, List.mem_map, List.mem_filter,
      Bool.and_eq_true, beq_iff_eq]
    exact ⟨p, ⟨hp, hkeep, hown⟩, rfl⟩
  · intro p hp hown hmem
    simp only [erase_data, if_pos, List.mem_map, List.mem_filter,
      Bool.and_eq_true, beq_iff_eq] at hmem
    obtain ⟨q, ⟨hq, _, hqown⟩, hqid⟩ := hmem
    have : q = p := List.inj_on_of_nodup_map hnd hq hp hqid
    subst this
    exact hown hqown

/-- Witness for C10: "alice" erases over a fetched list holding her own
playlist P1 and bob's playlist P2; exactly P1 is deleted, P2 is not. -/
theorem erase_only_owned_witness :
    ((List.map FetchedPlaylist.id
        [⟨"P1", "alice"⟩, ⟨"P2", "bob"⟩]).Nodup) ∧
    ("P1" ∈ (erase_data true true "alice" none
        [⟨"P1", "alice"⟩, ⟨"P2", "bob"⟩] []).1) ∧
    ("P2" ∉ (erase_data true true "alice" none
        [⟨"P1", "alice"⟩, ⟨"P2", "bob"⟩] []).1) := by
  have h := erase_only_owned true "alice" none
    [⟨"P1", "alice"⟩, ⟨"P2", "bob"⟩] [] (by decide)
  refine ⟨by decide, ?_, ?_⟩
  · exact h.2.1 ⟨"P1", "alice"⟩ (by decide) rfl rfl
  · exact h.2.2 ⟨"P2", "bob"⟩ (by decide) (by decide)

end SpotifyMigration
